import Mathlib

/-!
Verification development for the Funda property scraper (`src/app.py`).

The file shallowly embeds the pure core of the program:

* the per-field extraction cascades of `OnlineFundaScraper.extract_property_data`
  (address, asking price, floor area, energy label), translated regex by regex
  from the Python source;
* the whole of `extract_property_data`, including its `try`/`except` structure
  and the debug block at lines 69-88 that reads the local variable `data`
  before its assignment at line 95;
* `OnlineFundaScraper.get_commute_time_url`;
* the batch loop of `main` (lines 382-430).

Strings are modelled as Lean `String`/`List Char`; Python string indexing and
slicing are by characters, exactly as in CPython on `str`. Python `str.lower`,
`str.upper` and the whitespace class are modelled on the ASCII range (plus
NBSP for whitespace), which covers every character the embedded regexes and
literals can interact with here.
-/

/-- Python whitespace (`str.strip`, regex class backslash-s), modelled on the
ASCII whitespace characters plus the no-break space. -/
def isPySpace (c : Char) : Bool :=
  c == ' ' || c == '\t' || c == '\n' || c == '\r' || c == '\x0b' || c == '\x0c' || c == '\xa0'

/-- Python `str.lower` on one character (ASCII model). -/
def pyLowerChar (c : Char) : Char :=
  if decide ('A' ≤ c) && decide (c ≤ 'Z') then Char.ofNat (c.toNat + 32) else c

/-- Python `str.upper` on one character (ASCII model). -/
def pyUpperChar (c : Char) : Char :=
  if decide ('a' ≤ c) && decide (c ≤ 'z') then Char.ofNat (c.toNat - 32) else c

/-- Python `needle in hay` on strings, as character lists. -/
def listContains : List Char → List Char → Bool
  | [], needle => needle.isEmpty
  | c :: t, needle => needle.isPrefixOf (c :: t) || listContains t needle

/-- Python `needle in hay` on `String`. -/
def strContains (hay needle : String) : Bool :=
  listContains hay.data needle.data

/-- Python `hay.find(needle)` helper: index of the first occurrence starting
from position `i`, `-1` when absent. -/
def strFindAux : List Char → List Char → Int → Int
  | [], needle, i => if needle.isPrefixOf ([] : List Char) then i else -1
  | c :: t, needle, i => if needle.isPrefixOf (c :: t) then i else strFindAux t needle (i + 1)

/-- Python `hay.find(needle)`: character index of the first occurrence, `-1`
when absent. -/
def strFind (hay needle : List Char) : Int :=
  strFindAux hay needle 0

/-- Python `s.strip()` (ASCII whitespace model). -/
def pyStrip (s : String) : String :=
  String.mk (((s.data.dropWhile isPySpace).reverse.dropWhile isPySpace).reverse)

/-! ## Asking-price extraction, Method 1 (`app.py` lines 166-196)

The Python code scans `soup.get_text()` with five regexes

  pattern 1: `€\s*(\d{2,3}(?:\.\d{3})+)\s*k\.k\.`
  pattern 2: `€\s*(\d{2,3}(?:\.\d{3})+)\s*kk`
  pattern 3: `€\s*(\d{2,3}(?:\.\d{3})+)\s*kosten koper`
  pattern 4: `€\s*(\d{2,3}(?:\.\d{3})+)\s*vk`
  pattern 5: `€\s*(\d{2,3}(?:\.\d{3})+)`

with `re.IGNORECASE`, takes `matches[0]` of the first pattern with a match,
checks a context window of the page text for "per maand"/"maandlasten", and
formats the result according to substring tests *on the raw pattern string*.

For these patterns a greedy matcher without backtracking is equivalent to
Python backtracking: every backtracking opportunity (shortening `\d{2,3}`,
dropping a `\.\d{3}` repetition, or shortening `\s*`) leaves the next
required token facing a character it can never accept (a digit where a dot
or the literal qualifier is required, a dot or space where a digit or the
qualifier letter is required). The matcher below is that greedy matcher.
-/

/-- Greedy match of `(?:\.\d{3})+` at the head of the list: returns the
matched characters and the remainder, or `none` when no repetition matches. -/
def priceRepGroups : List Char → Option (List Char × List Char)
  | '.' :: a :: b :: c :: rest =>
    if a.isDigit && b.isDigit && c.isDigit then
      match priceRepGroups rest with
      | some (gs, r) => some ('.' :: a :: b :: c :: gs, r)
      | none => some (['.', a, b, c], rest)
    else none
  | _ => none

/-- Case-insensitive literal match (the `re.IGNORECASE` flag of line 179),
checking that the qualifier is a prefix of the remaining text. -/
def matchLitCI : List Char → List Char → Bool
  | [], _ => true
  | _ :: _, [] => false
  | q :: qs, c :: cs => (pyLowerChar q == pyLowerChar c) && matchLitCI qs cs

/-- One attempt of a price pattern at the head of `s`; `qual` is the literal
qualifier the pattern ends with (empty for pattern 5). Returns the capture
group (the grouped number). -/
def matchPriceAt (qual : List Char) : List Char → Option String
  | [] => none
  | c :: s1 =>
    if c = '€' then
      let s2 := s1.dropWhile isPySpace
      let ds := s2.takeWhile Char.isDigit
      if 2 ≤ ds.length && ds.length ≤ 3 then
        match priceRepGroups (s2.drop ds.length) with
        | some (gs, s4) =>
          if matchLitCI qual (s4.dropWhile isPySpace) then some (String.mk (ds ++ gs))
          else none
        | none => none
      else none
    else none

/-- Python `re.findall(pattern, all_text)[0]` for a price pattern: the capture
group of the leftmost match, scanning start positions left to right. -/
def priceFindFirst (qual : List Char) : List Char → Option String
  | [] => none
  | c :: t =>
    match matchPriceAt qual (c :: t) with
    | some g => some g
    | none => priceFindFirst qual t

/-- Lines 182-186: the monthly-rent disambiguation window. The code looks up
the first occurrence of the literal `"€ " + matches[0]` (one space), takes
the slice from 50 characters before to 100 characters after it (clamped;
`find` returning `-1` gives the slice `[0:99]`), lowercases it, and requires
that neither "per maand" nor "maandlasten" occurs in it. -/
def priceContextClean (txt g : String) : Bool :=
  let all := txt.data
  let idx : Int := strFind all ('€' :: ' ' :: g.data)
  let cstart : Int := max 0 (idx - 50)
  let cend : Int := min (all.length : Int) (idx + 100)
  let context := ((all.drop cstart.toNat).take (cend.toNat - cstart.toNat)).map pyLowerChar
  !(listContains context "per maand".data) && !(listContains context "maandlasten".data)

/-- Lines 187-192: the qualifier appended to the output is chosen by substring
tests on the RAW pattern string (with its backslash escapes), exactly as in
the source: `if "k.k." in pattern or "kk" in pattern or "kosten koper" in
pattern: ... elif "vk" in pattern: ... else: ...`. -/
def formatAskingPrice (patternStr g : String) : String :=
  if strContains patternStr "k.k." || strContains patternStr "kk"
      || strContains patternStr "kosten koper" then
    "€ " ++ g ++ " k.k."
  else if strContains patternStr "vk" then
    "€ " ++ g ++ " vk"
  else
    "€ " ++ g

/-- The five price patterns of lines 170-176, as (raw pattern string,
trailing literal qualifier) pairs. The pattern strings are the exact Python
raw-string literals. -/
def price_patterns : List (String × String) :=
  [("€\\s*(\\d\x7b2,3\x7d(?:\\.\\d\x7b3\x7d)+)\\s*k\\.k\\.", "k.k."),
   ("€\\s*(\\d\x7b2,3\x7d(?:\\.\\d\x7b3\x7d)+)\\s*kk", "kk"),
   ("€\\s*(\\d\x7b2,3\x7d(?:\\.\\d\x7b3\x7d)+)\\s*kosten koper", "kosten koper"),
   ("€\\s*(\\d\x7b2,3\x7d(?:\\.\\d\x7b3\x7d)+)\\s*vk", "vk"),
   ("€\\s*(\\d\x7b2,3\x7d(?:\\.\\d\x7b3\x7d)+)", "")]

/-- Lines 178-194: try the patterns in order; on a match whose context window
is clean, format and stop; on a dirty window, fall through to the next
pattern (not to a later match of the same pattern). -/
def priceLoop : List (String × String) → String → Option String
  | [], _ => none
  | (pstr, qual) :: rest, txt =>
    match priceFindFirst qual.data txt.data with
    | none => priceLoop rest txt
    | some g =>
      if priceContextClean txt g then some (formatAskingPrice pstr g)
      else priceLoop rest txt

/-- Asking-price extraction Method 1 (the full-text pattern scan of lines
166-196). -/
def priceScanMethod1 (txt : String) : Option String :=
  priceLoop price_patterns txt

/-! ## Area and energy-label extraction (`app.py` lines 217-265)

The dt/dd key-value scan (lines 219-240) handles both fields in one loop:
an area hit breaks out of the loop, an energy hit does not (so a later
matching dt overwrites it). The fallbacks (lines 242-254 and 256-265) scan
the full page text. For the area regexes a greedy matcher is again
equivalent to Python backtracking: shortening any greedy piece leaves the
next token facing a digit, a dot or a comma it can never accept. -/

/-- Digits of a numeric capture as a natural number. -/
def digitsToNat (l : List Char) : Nat :=
  l.foldl (fun a c => a * 10 + (c.toNat - 48)) 0

/-- Python `float` on a capture of shape `digits[.digits]` (after the
comma-to-dot replacement), as an exact rational. -/
def parseAreaRat (s : String) : Rat :=
  match s.data.span (fun c => c != '.') with
  | (ip, []) => (digitsToNat ip : Rat)
  | (ip, _ :: fp) => (digitsToNat ip : Rat) + (digitsToNat fp : Rat) / ((10 : Rat) ^ fp.length)

/-- Line 250: the plausible-dwelling-size filter `10 <= area_value <= 1000`. -/
def areaInRange (s : String) : Bool :=
  decide ((10 : Rat) ≤ parseAreaRat s) && decide (parseAreaRat s ≤ (1000 : Rat))

/-- Python `match.replace(",", ".")` on a capture. -/
def commaToDot (s : String) : String :=
  String.mk (s.data.map (fun c => if c == ',' then '.' else c))

/-- One attempt of the fallback area regex `(\d+(?:[,\.]\d+)?)\s*m[²2]`
(line 247) at the head of `s`; returns the capture and the remainder after
the whole match (for the non-overlapping continuation of `findall`). -/
def matchAreaAt (s : List Char) : Option (String × List Char) :=
  let ds := s.takeWhile Char.isDigit
  if ds.isEmpty then none
  else
    let s1 := s.drop ds.length
    let fr : Option (List Char × List Char) :=
      match s1 with
      | c :: rest =>
        if c == ',' || c == '.' then
          let fs := rest.takeWhile Char.isDigit
          if fs.isEmpty then none else some (c :: fs, rest.drop fs.length)
        else none
      | [] => none
    let (frac, s2) :=
      match fr with
      | some (f, r) => (f, r)
      | none => ([], s1)
    match s2.dropWhile isPySpace with
    | 'm' :: u :: rest2 =>
      if u == '²' || u == '2' then some (String.mk (ds ++ frac), rest2) else none
    | _ => none

/-- Lines 247-252: walk the `findall` matches in order and return the first
whose normalized value passes the range filter. The fuel argument starts at
the text length; every step consumes at least one character, so the fuel
never runs out before the text does. -/
def areaScanAux : Nat → List Char → Option String
  | 0, _ => none
  | _ + 1, [] => none
  | fuel + 1, c :: rest =>
    match matchAreaAt (c :: rest) with
    | some (g, after) =>
      let norm := commaToDot g
      if areaInRange norm then some norm else areaScanAux fuel after
    | none => areaScanAux fuel rest

/-- Area extraction Method 2: the full-text fallback scan of lines 243-254. -/
def areaScan (l : List Char) : Option String :=
  areaScanAux l.length l

/-- One attempt of the dt/dd area regex `(\d+(?:[,\.]\d+)?)\s*m[²2]?`
(line 227, the square suffix optional here) at the head of `s`. -/
def matchDdAreaAt (s : List Char) : Option String :=
  let ds := s.takeWhile Char.isDigit
  if ds.isEmpty then none
  else
    let s1 := s.drop ds.length
    let fr : Option (List Char × List Char) :=
      match s1 with
      | c :: rest =>
        if c == ',' || c == '.' then
          let fs := rest.takeWhile Char.isDigit
          if fs.isEmpty then none else some (c :: fs, rest.drop fs.length)
        else none
      | [] => none
    let (frac, s2) :=
      match fr with
      | some (f, r) => (f, r)
      | none => ([], s1)
    match s2.dropWhile isPySpace with
    | 'm' :: _ => some (String.mk (ds ++ frac))
    | _ => none

/-- Python `re.search` with the dt/dd area regex: leftmost match. -/
def ddAreaSearch : List Char → Option String
  | [] => none
  | c :: t =>
    match matchDdAreaAt (c :: t) with
    | some g => some g
    | none => ddAreaSearch t

/-- Python `re.search(r"([A-G])", dd_text)` (line 236): the first character
in the range A-G. -/
def searchAG (l : List Char) : Option Char :=
  l.find? (fun c => decide ('A' ≤ c) && decide (c ≤ 'G'))

/-- Python `dt.get_text(strip=True).lower()` for a dt entry (the page model holds
the stripped text). -/
def dtKeyLower (dt : String) : String :=
  String.mk (dt.data.map pyLowerChar)

/-- Line 223: the area keyword test on the lowercased dt text. -/
def isAreaKey (dtl : String) : Bool :=
  strContains dtl "woonoppervlakte" || strContains dtl "oppervlakte"
    || strContains dtl "gebruiksoppervlakte"

/-- Line 232: the energy keyword test on the lowercased dt text. -/
def isEnergyKey (dtl : String) : Bool :=
  strContains dtl "energielabel" || strContains dtl "energie"

/-- The dt/dd loop of lines 219-240 over (dt text, optional sibling dd text)
pairs, threading the energy accumulator; returns (area, energy label).
An area hit breaks the loop; an energy hit overwrites and continues. -/
def dtLoopGo : List (String × Option String) → Option String → Option String × Option String
  | [], e => (none, e)
  | (dt, dd) :: rest, e =>
    if isAreaKey (dtKeyLower dt) then
      match dd with
      | some ddt =>
        match ddAreaSearch ddt.data with
        | some a => (some (commaToDot a), e)
        | none => dtLoopGo rest e
      | none => dtLoopGo rest e
    else if isEnergyKey (dtKeyLower dt) then
      match dd with
      | some ddt =>
        match searchAG ddt.data with
        | some c => dtLoopGo rest (some (String.mk [c]))
        | none => dtLoopGo rest e
      | none => dtLoopGo rest e
    else dtLoopGo rest e

/-- One attempt of the fallback energy regex `[Ee]nergielabel[:\s]*([A-G])`
(line 261) at the head of `s`: only the first keyword letter is
case-insensitive. -/
def tryEnergyAt : List Char → Option Char
  | [] => none
  | c :: rest =>
    if (c == 'E' || c == 'e') && "nergielabel".data.isPrefixOf rest then
      match (rest.drop 11).dropWhile (fun c2 => c2 == ':' || isPySpace c2) with
      | c2 :: _ => if decide ('A' ≤ c2) && decide (c2 ≤ 'G') then some c2 else none
      | [] => none
    else none

/-- Leftmost match of the fallback energy regex over the page text. -/
def energyScanList : List Char → Option Char
  | [] => none
  | c :: t =>
    match tryEnergyAt (c :: t) with
    | some ch => some ch
    | none => energyScanList t

/-- Energy Method 3 (lines 256-265): `energy_matches[0].upper()`. -/
def energyFallback (txt : String) : Option String :=
  (energyScanList txt.data).map (fun c => String.mk [pyUpperChar c])

/-- Area extraction: the dt/dd result, else the full-text fallback
(line 243: `if not data["area_m2"]`). -/
def extract_area (dts : List (String × Option String)) (txt : String) : Option String :=
  match (dtLoopGo dts none).1 with
  | some v => some v
  | none => areaScan txt.data

/-- Energy-label extraction: the dt/dd result, else the full-text fallback
(line 257: `if not data["energy_label"]`). -/
def extract_energy (dts : List (String × Option String)) (txt : String) : Option String :=
  match (dtLoopGo dts none).2 with
  | some v => some v
  | none => energyFallback txt

/-! ## Commute-link generator (`app.py` lines 279-283) -/

/-- Python `home_address.replace("\n", " ")`. -/
def replaceNewlines (s : String) : String :=
  String.mk (s.data.map (fun c => if c == '\n' then ' ' else c))

/-- The characters `urllib.parse.quote` leaves unencoded with the default
`safe="/"`: the always-safe set (letters, digits, `_.-~`) plus the slash. -/
def quoteSafe (c : Char) : Bool :=
  (decide ('A' ≤ c) && decide (c ≤ 'Z')) || (decide ('a' ≤ c) && decide (c ≤ 'z'))
    || (decide ('0' ≤ c) && decide (c ≤ '9'))
    || c == '_' || c == '.' || c == '-' || c == '~' || c == '/'

/-- UTF-8 encoding of one character, as byte values. -/
def utf8Bytes (c : Char) : List Nat :=
  let n := c.toNat
  if n < 128 then [n]
  else if n < 2048 then [192 + n / 64, 128 + n % 64]
  else if n < 65536 then [224 + n / 4096, 128 + (n / 64) % 64, 128 + n % 64]
  else [240 + n / 262144, 128 + (n / 4096) % 64, 128 + (n / 64) % 64, 128 + n % 64]

/-- Uppercase hex digit for a value below 16. -/
def hexDigitChar (m : Nat) : Char :=
  Char.ofNat (if m < 10 then 48 + m else 55 + m)

/-- Percent-escape of one byte, uppercase hex as `urllib.parse.quote` emits. -/
def percentByte (b : Nat) : List Char :=
  ['%', hexDigitChar (b / 16 % 16), hexDigitChar (b % 16)]

/-- Encoding of one character under `urllib.parse.quote`. -/
def quoteChar (c : Char) : List Char :=
  if quoteSafe c then [c]
  else (utf8Bytes c).foldr (fun b a => percentByte b ++ a) []

/-- Python `urllib.parse.quote` over a character list. -/
def pyQuoteList : List Char → List Char
  | [] => []
  | c :: t => quoteChar c ++ pyQuoteList t

/-- Python `urllib.parse.quote(s)` with the default `safe="/"`. -/
def pyQuote (s : String) : String :=
  String.mk (pyQuoteList s.data)

/-- The method `OnlineFundaScraper.get_commute_time_url` (lines 279-283). -/
def get_commute_time_url (home_address work_address : String) : String :=
  let home_clean := pyStrip (replaceNewlines home_address)
  let work_clean := pyStrip (replaceNewlines work_address)
  "https://www.google.com/maps/dir/" ++ pyQuote home_clean ++ "/" ++ pyQuote work_clean
    ++ "/data=!3m1!4b1!4m2!4m1!3e3"

/-! ## Address extraction (`app.py` lines 104-162)

Methods 1 and 2 are direct. Method 3 runs `re.findall` with two genuinely
ambiguous regexes (`[A-Za-z\s]+\s+\d+...`), so it is embedded through a
small backtracking engine over sequences of single-character-class
quantifiers, which reproduces the Python engine: greedy quantifiers tried
longest first, leftmost match, non-overlapping continuation. -/

/-- One regex element: a character class under a quantifier. -/
inductive RElem where
  | exactN (p : Char → Bool) (n : Nat)
  | opt (p : Char → Bool)
  | star (p : Char → Bool)
  | plus (p : Char → Bool)

/-- Backtracking matcher for a sequence of elements at the head of `s`:
the length consumed by the first match in the backtracking order Python
uses (greedy, longest repetition first). -/
def reMatch : List RElem → List Char → Option Nat
  | [], _ => some 0
  | RElem.exactN p n :: es, s =>
    let pre := s.take n
    if pre.length == n && pre.all p then (reMatch es (s.drop n)).map (· + n) else none
  | RElem.opt p :: es, s =>
    match s with
    | [] => reMatch es []
    | c :: rest =>
      if p c then
        match (reMatch es rest).map (· + 1) with
        | some k => some k
        | none => reMatch es (c :: rest)
      else reMatch es (c :: rest)
  | RElem.star p :: es, s =>
    let r := (s.takeWhile p).length
    ((List.range (r + 1)).reverse).findSome? (fun i => (reMatch es (s.drop i)).map (· + i))
  | RElem.plus p :: es, s =>
    let r := (s.takeWhile p).length
    (((List.range r).reverse).map (· + 1)).findSome?
      (fun i => (reMatch es (s.drop i)).map (· + i))

/-- Leftmost match over `s`: start offset and consumed length. -/
def reFirstLen (es : List RElem) : List Char → Option (Nat × Nat)
  | [] => (reMatch es []).map (fun n => (0, n))
  | c :: rest =>
    match reMatch es (c :: rest) with
    | some n => some (0, n)
    | none => (reFirstLen es rest).map (fun p => (p.1 + 1, p.2))

/-- Python `re.findall`: leftmost matches, non-overlapping, in order. Fuel bounds
the number of matches; text length plus one always suffices. -/
def reFindAllAux (es : List RElem) : Nat → List Char → List String
  | 0, _ => []
  | fuel + 1, s =>
    match reFirstLen es s with
    | none => []
    | some (st, n) =>
      String.mk ((s.drop st).take n) :: reFindAllAux es fuel (s.drop (st + max n 1))

/-- Python `re.findall(pattern, text)` for a whole-match-capture pattern. -/
def reFindAll (es : List RElem) (s : List Char) : List String :=
  reFindAllAux es (s.length + 1) s

/-- Character classes of the address regexes (`\d` and the letter ranges
modelled on ASCII). -/
def isAlphaAZ (c : Char) : Bool :=
  (decide ('A' ≤ c) && decide (c ≤ 'Z')) || (decide ('a' ≤ c) && decide (c ≤ 'z'))

/-- The class `[A-Z]`. -/
def isUpperAZ (c : Char) : Bool :=
  decide ('A' ≤ c) && decide (c ≤ 'Z')

/-- Line 149: `([A-Za-z\s]+\s+\d+[A-Za-z]?[,\s]+\d{4}\s*[A-Z]{2}[,\s]+[A-Za-z\s]+)`. -/
def addrPatA : List RElem :=
  [RElem.plus (fun c => isAlphaAZ c || isPySpace c),
   RElem.plus isPySpace,
   RElem.plus Char.isDigit,
   RElem.opt isAlphaAZ,
   RElem.plus (fun c => c == ',' || isPySpace c),
   RElem.exactN Char.isDigit 4,
   RElem.star isPySpace,
   RElem.exactN isUpperAZ 2,
   RElem.plus (fun c => c == ',' || isPySpace c),
   RElem.plus (fun c => isAlphaAZ c || isPySpace c)]

/-- Line 150: `([A-Za-z\s]+\s+\d+[A-Za-z]?[,\s\n]+[A-Za-z\s]+)`. -/
def addrPatB : List RElem :=
  [RElem.plus (fun c => isAlphaAZ c || isPySpace c),
   RElem.plus isPySpace,
   RElem.plus Char.isDigit,
   RElem.opt isAlphaAZ,
   RElem.plus (fun c => c == ',' || isPySpace c),
   RElem.plus (fun c => isAlphaAZ c || isPySpace c)]

/-- Address Method 1 (lines 106-125): the first selector hit whose stripped
text is nonempty, longer than 10 characters and contains a digit. The page
model carries the stripped text each selector would produce. -/
def addressMethod1 (sels : List (Option String)) : Option String :=
  match sels.find? (fun o =>
      match o with
      | some t => !t.isEmpty && decide (10 < t.length) && t.data.any Char.isDigit
      | none => false) with
  | some (some t) => some t
  | _ => none

/-- Address Method 2 (lines 127-140): `re.search(r"^([^-]+)", title)`, strip,
keep when longer than 10 characters. -/
def addressMethod2 (title : Option String) : Option String :=
  match title with
  | none => none
  | some tt =>
    let pre := tt.data.takeWhile (fun c => c != '-')
    if pre.isEmpty then none
    else
      let cand := pyStrip (String.mk pre)
      if 10 < cand.length then some cand else none

/-- Address Method 3 (lines 142-162): for each pattern, the first `findall`
match with `15 < len < 100`, stripped. -/
def addressMethod3 (txt : String) : Option String :=
  match (reFindAll addrPatA txt.data).find?
      (fun m => decide (15 < m.length) && decide (m.length < 100)) with
  | some m => some (pyStrip m)
  | none =>
    match (reFindAll addrPatB txt.data).find?
        (fun m => decide (15 < m.length) && decide (m.length < 100)) with
    | some m => some (pyStrip m)
    | none => none

/-! ## The record, the page model and `extract_property_data` -/

/-- The result dict built by `extract_property_data` (lines 95-102 and
269-277), with the commute keys `main` may add (lines 419-427). -/
structure ListingRecord where
  address : Option String
  link : String
  asking_price : Option String
  area_m2 : Option String
  energy_label : Option String
  status : String
  commute_url_1 : Option String := none
  commute_url_2 : Option String := none
deriving DecidableEq

/-- The parsed page (`BeautifulSoup` document), reduced to the queries the
extractor performs: the stripped text of each of the six address selectors
in order, the title text, `soup.get_text()`, the (dt text, following dd
text) pairs, and the `offers.price` value of each JSON-LD script that
parses to a dict (with `None` for scripts without a usable price). -/
structure Page where
  selectorTexts : List (Option String)
  title : Option String
  text : String
  dts : List (String × Option String)
  ldOffers : List (Option Nat)
deriving DecidableEq

/-- Outcome of `self.session.get(url, timeout=10)` followed by
`raise_for_status()`: a parsed page, an HTTP error status (4xx/5xx, which
`raise_for_status` turns into an exception message), or a transport-level
failure (DNS, connect, timeout). -/
inductive FetchResult where
  | ok (page : Page)
  | httpError (code : Nat) (msg : String)
  | transportError (msg : String)
deriving DecidableEq

/-- The message of the `UnboundLocalError` raised when a local variable is
read before assignment (CPython 3.11 wording). -/
def UnboundLocalMsg : String :=
  "cannot access local variable \x27data\x27 where it is not associated with a value"

/-- Lines 69-88: the debug block reads the local variable `data` before its
first assignment at line 95, so in Python its very first statement raises
`UnboundLocalError`; the read of an unbound local is modelled as an
`Except.error`. -/
def debugBlock : Except String Unit :=
  Except.error UnboundLocalMsg

/-- Lines 90-91: `self.session.get(...)` plus `response.raise_for_status()`,
raising on fetch failure. -/
def doFetch : FetchResult → Except String Page
  | FetchResult.ok p => Except.ok p
  | FetchResult.httpError _ msg => Except.error msg
  | FetchResult.transportError msg => Except.error msg

/-- Python `f"{price:,.0f}".replace(",", ".")` for a whole price: dot-grouped
thousands. -/
def formatThousands (n : Nat) : String :=
  if _h : n < 1000 then toString n
  else
    formatThousands (n / 1000) ++ "." ++
      (if n % 1000 < 10 then "00" else if n % 1000 < 100 then "0" else "") ++ toString (n % 1000)
decreasing_by exact Nat.div_lt_self (by omega) (by omega)

/-- Price Method 2 (lines 198-215): the first JSON-LD script with a truthy
`offers.price` value. -/
def ldJsonPrice (offers : List (Option Nat)) : Option String :=
  match offers.find? (fun o =>
      match o with
      | some p => decide (p ≠ 0)
      | none => false) with
  | some (some p) => some ("€ " ++ formatThousands p)
  | _ => none

/-- The address cascade (lines 104-162). -/
def extractAddress (p : Page) : Option String :=
  match addressMethod1 p.selectorTexts with
  | some a => some a
  | none =>
    match addressMethod2 p.title with
    | some a => some a
    | none => addressMethod3 p.text

/-- The price cascade (lines 164-215). -/
def extractPrice (p : Page) : Option String :=
  match priceScanMethod1 p.text with
  | some v => some v
  | none => ldJsonPrice p.ldOffers

/-- The body of the `try` block of `extract_property_data` (lines 68-267):
first the debug block (which always raises, because it reads `data` before
the assignment at line 95), then the fetch, then the field cascades into
the record with status `"Success"`. Everything after `debugBlock` is dead
code in every execution, exactly as in the source. -/
def tryBody (fetch : FetchResult) (url : String) : Except String ListingRecord := do
  debugBlock
  let page ← doFetch fetch
  Except.ok
    { address := extractAddress page
      link := url
      asking_price := extractPrice page
      area_m2 := extract_area page.dts page.text
      energy_label := extract_energy page.dts page.text
      status := "Success" }

/-- The method `OnlineFundaScraper.extract_property_data` (lines 66-277): the `try`
body, with the `except Exception` handler of lines 269-277 turning any
raised exception into the error record. -/
def extract_property_data (fetch : FetchResult) (url : String) : ListingRecord :=
  match tryBody fetch url with
  | Except.ok d => d
  | Except.error e =>
    { address := none
      link := url
      asking_price := none
      area_m2 := none
      energy_label := none
      status := "Error: " ++ e }

/-! ## Batch orchestration (`main`, lines 382-430) -/

/-- One loop iteration (lines 384-430): scrape the URL, then attach commute
URLs when both the extracted address and the corresponding work address are
truthy, then append. The fixed `time.sleep(1)` and the progress/debug UI
have no effect on the batch. -/
def scrapeStep (fetch : String → FetchResult) (w1 w2 : String) (url : String) : ListingRecord :=
  let r0 := extract_property_data (fetch url) url
  let r1 :=
    match r0.address with
    | some a => if !a.isEmpty && !w1.isEmpty then
        { r0 with commute_url_1 := some (get_commute_time_url a w1) }
      else r0
    | none => r0
  match r1.address with
  | some a => if !a.isEmpty && !w2.isEmpty then
      { r1 with commute_url_2 := some (get_commute_time_url a w2) }
    else r1
  | none => r1

/-- The `for i, url in enumerate(st.session_state.urls_list)` loop building
`properties_data` by appending one record per URL. -/
def scrapeRun (urls : List String) (fetch : String → FetchResult) (w1 w2 : String) :
    List ListingRecord :=
  urls.foldl (fun acc url => acc ++ [scrapeStep fetch w1 w2 url]) []

/-- Placeholder record used only as the default of `List.getD` in theorem
statements. -/
def defaultRecord : ListingRecord :=
  { address := none, link := "", asking_price := none, area_m2 := none,
    energy_label := none, status := "" }

/-! ## Theorems -/

/-- Appending strings appends their character lists. -/
theorem strdata_append (s t : String) : (s ++ t).data = s.data ++ t.data := rfl

/-- Every call of `extract_property_data` takes the exception branch: the
first statement of the `try` block reads the unbound local `data`, so the
handler of lines 269-277 builds the error record, whatever the fetch did. -/
theorem extract_eq_error (fetch : FetchResult) (url : String) :
    extract_property_data fetch url =
      { address := none, link := url, asking_price := none, area_m2 := none,
        energy_label := none, status := "Error: " ++ UnboundLocalMsg } := rfl

/-- Claim C2 (confirmed): for every input, `extract_property_data` returns a
record whose status starts with "Error:" and is not "Success", with the
address, asking price, area and energy-label fields all unset — the debug
block of lines 70-88 reads `data` before its assignment at line 95, so
every invocation raises inside the `try` block. -/
theorem extract_never_success (fetch : FetchResult) (url : String) :
    "Error:".data.isPrefixOf (extract_property_data fetch url).status.data = true ∧
    ((extract_property_data fetch url).status == "Success") = false ∧
    (extract_property_data fetch url).address = none ∧
    (extract_property_data fetch url).asking_price = none ∧
    (extract_property_data fetch url).area_m2 = none ∧
    (extract_property_data fetch url).energy_label = none := by
  refine ⟨?_, ?_, rfl, rfl, rfl, rfl⟩
  · show "Error:".data.isPrefixOf ("Error: " ++ UnboundLocalMsg).data = true
    decide
  · show (("Error: " ++ UnboundLocalMsg) == "Success") = false
    decide

/-- Claim C1 (code-bug evidence): even when the fetch succeeds and the page
is fully parseable, the returned record has an "Error:" status and is never
"Success" — no invocation completes the `try` block, contradicting the
specified invariant that a non-raising run yields "Success". -/
theorem extract_always_errors_despite_successful_fetch (page : Page) (url : String) :
    ((extract_property_data (FetchResult.ok page) url).status == "Success") = false ∧
    "Error:".data.isPrefixOf
      (extract_property_data (FetchResult.ok page) url).status.data = true := by
  refine ⟨?_, ?_⟩
  · show (("Error: " ++ UnboundLocalMsg) == "Success") = false
    decide
  · show "Error:".data.isPrefixOf ("Error: " ++ UnboundLocalMsg).data = true
    decide

/-- Claim C4 (confirmed): for a fetch that returns a non-2xx HTTP status or
fails at transport level, the record has an "Error:" status and all content
fields unset, and the call returns a record rather than propagating an
exception (the embedding is a total function). -/
theorem fetch_failure_yields_error_record (url msg tmsg : String) (code : Nat) :
    ("Error:".data.isPrefixOf
        (extract_property_data (FetchResult.httpError code msg) url).status.data = true ∧
      (extract_property_data (FetchResult.httpError code msg) url).address = none ∧
      (extract_property_data (FetchResult.httpError code msg) url).asking_price = none ∧
      (extract_property_data (FetchResult.httpError code msg) url).area_m2 = none ∧
      (extract_property_data (FetchResult.httpError code msg) url).energy_label = none) ∧
    ("Error:".data.isPrefixOf
        (extract_property_data (FetchResult.transportError tmsg) url).status.data = true ∧
      (extract_property_data (FetchResult.transportError tmsg) url).address = none ∧
      (extract_property_data (FetchResult.transportError tmsg) url).asking_price = none ∧
      (extract_property_data (FetchResult.transportError tmsg) url).area_m2 = none ∧
      (extract_property_data (FetchResult.transportError tmsg) url).energy_label = none) := by
  refine ⟨⟨?_, rfl, rfl, rfl, rfl⟩, ⟨?_, rfl, rfl, rfl, rfl⟩⟩ <;>
    · show "Error:".data.isPrefixOf ("Error: " ++ UnboundLocalMsg).data = true
      decide

/-- Claim C10 (confirmed): whichever branch produces the record, its `link`
field is the input URL unmodified. -/
theorem extract_link_preserved (fetch : FetchResult) (url : String) :
    (extract_property_data fetch url).link = url := by
  rw [extract_eq_error]

/-- A loop step never changes the `link` field set by
`extract_property_data`. -/
theorem scrapeStep_link (fetch : String → FetchResult) (w1 w2 url : String) :
    (scrapeStep fetch w1 w2 url).link = url := by
  have h0 : (extract_property_data (fetch url) url).link = url := by rw [extract_eq_error]
  unfold scrapeStep
  cases hadr : (extract_property_data (fetch url) url).address with
  | none => simpa [hadr] using h0
  | some a =>
    by_cases h1 : (!a.isEmpty && !w1.isEmpty) = true <;>
      by_cases h2 : (!a.isEmpty && !w2.isEmpty) = true <;>
        simp [hadr, h1, h2, h0]

/-- The append-accumulator loop is a `map`. -/
theorem scrapeRun_eq_map (urls : List String) (fetch : String → FetchResult) (w1 w2 : String) :
    scrapeRun urls fetch w1 w2 = urls.map (scrapeStep fetch w1 w2) := by
  have key : ∀ (us : List String) (acc : List ListingRecord),
      us.foldl (fun acc url => acc ++ [scrapeStep fetch w1 w2 url]) acc =
        acc ++ us.map (scrapeStep fetch w1 w2) := by
    intro us
    induction us with
    | nil => intro acc; simp
    | cons u t ih => intro acc; simp [List.foldl_cons, ih]
  simpa using key urls []

/-- Claim C3 (confirmed): one scrape run yields exactly one record per input
URL, in input order — the i-th record belongs to the i-th URL, and no
failure (every fetch outcome included) removes, reorders or aborts
anything, since the loop is a total fold over the URL list. -/
theorem scrape_batch_one_record_per_url_in_order (urls : List String)
    (fetch : String → FetchResult) (w1 w2 : String) :
    (scrapeRun urls fetch w1 w2).length = urls.length ∧
    ∀ i : Nat, i < urls.length →
      ((scrapeRun urls fetch w1 w2).getD i defaultRecord).link = urls.getD i "" := by
  rw [scrapeRun_eq_map]
  refine ⟨List.length_map _ _, ?_⟩
  intro i hi
  induction urls generalizing i with
  | nil => simp at hi
  | cons u t ih =>
    cases i with
    | zero => simpa using scrapeStep_link fetch w1 w2 u
    | succ j =>
      have hj : j < t.length := by simpa using hi
      simpa using ih j hj

/-- Witness for C3 at a concrete batch: two URLs with failing fetches still
give two records in order. -/
theorem scrape_batch_one_record_per_url_in_order_witness :
    (scrapeRun ["url-a", "url-b"] (fun _ => FetchResult.transportError "timed out") "w" "").length
        = 2 ∧
    ((scrapeRun ["url-a", "url-b"] (fun _ => FetchResult.transportError "timed out") "w"
        "").getD 1 defaultRecord).link = "url-b" := by
  have h := scrape_batch_one_record_per_url_in_order ["url-a", "url-b"]
    (fun _ => FetchResult.transportError "timed out") "w" ""
  exact ⟨h.1, h.2 1 (by decide)⟩

/-- Claim C5 (code-bug evidence): on a page containing "€ 395.000 k.k."
with no monthly-rent wording anywhere, the price scan returns "€ 395.000"
WITHOUT the qualifier: the branch of lines 187-192 tests the substrings
"k.k."/"kk" against the raw pattern string, which spells the qualifier as
`k\.k\.`, so the first pattern always falls into the unqualified branch. -/
theorem price_kk_qualifier_dropped :
    priceScanMethod1 "Te koop: € 395.000 k.k. in Utrecht" = some "€ 395.000" ∧
    strContains "€\\s*(\\d\x7b2,3\x7d(?:\\.\\d\x7b3\x7d)+)\\s*k\\.k\\." "k.k." = false ∧
    (("€ 395.000" : String) == "€ 395.000 k.k.") = false := by
  exact ⟨by decide, by decide, by decide⟩

/-- The hex digits used by the percent encoder are never a newline. -/
theorem hexDigitChar_ne_newline : ∀ m : Nat, m < 16 → (hexDigitChar m == '\n') = false := by
  decide

/-- No byte escape contains a newline character. -/
theorem percentByte_no_newline (b : Nat) :
    (percentByte b).all (fun c => !(c == '\n')) = true := by
  have h1 := hexDigitChar_ne_newline (b / 16 % 16) (Nat.mod_lt _ (by omega))
  have h2 := hexDigitChar_ne_newline (b % 16) (Nat.mod_lt _ (by omega))
  simp [percentByte, List.all_cons]
  exact ⟨by simpa using h1, by simpa using h2⟩

/-- The encoding of any single character contains no newline. -/
theorem quoteChar_no_newline (c : Char) :
    (quoteChar c).all (fun x => !(x == '\n')) = true := by
  unfold quoteChar
  by_cases hs : quoteSafe c = true
  · have hc : (c == '\n') = false := by
      cases hcn : (c == '\n') with
      | false => rfl
      | true =>
        have : c = '\n' := by simpa using hcn
        subst this
        simp [quoteSafe] at hs
    simp [hs, List.all_cons, hc]
  · simp only [hs]
    simp only [Bool.false_eq_true, if_false]
    generalize utf8Bytes c = bs
    induction bs with
    | nil => decide
    | cons b t ih =>
      simp only [List.foldr_cons, List.all_append]
      exact by simp [percentByte_no_newline b, ih]

/-- The `pyQuote` output never contains a newline. -/
theorem pyQuoteList_no_newline (l : List Char) :
    (pyQuoteList l).all (fun x => !(x == '\n')) = true := by
  induction l with
  | nil => decide
  | cons c t ih => simp [pyQuoteList, List.all_append, quoteChar_no_newline c, ih]

/-- Claim C9 (confirmed): `get_commute_time_url` is a pure function of its
two arguments that strips embedded newlines, trims, percent-encodes each
address and splices them into the fixed Maps directions template with the
fixed mode suffix; on the concrete pair of the claim it produces exactly
the expected URL, containing both encoded addresses, no newline, and the
suffix — and for ALL inputs the output ends with the fixed suffix and is
newline-free. -/
theorem commute_url_encoding :
    get_commute_time_url "Dam 1\n1012 JS Amsterdam" "Rotterdam Centraal" =
      "https://www.google.com/maps/dir/Dam%201%201012%20JS%20Amsterdam/Rotterdam%20Centraal/data=!3m1!4b1!4m2!4m1!3e3" ∧
    strContains (get_commute_time_url "Dam 1\n1012 JS Amsterdam" "Rotterdam Centraal")
      "Dam%201%201012%20JS%20Amsterdam" = true ∧
    strContains (get_commute_time_url "Dam 1\n1012 JS Amsterdam" "Rotterdam Centraal")
      "Rotterdam%20Centraal" = true ∧
    (∀ h w : String, ∃ p : String,
      get_commute_time_url h w = p ++ "/data=!3m1!4b1!4m2!4m1!3e3") ∧
    (∀ h w : String,
      (get_commute_time_url h w).data.all (fun c => !(c == '\n')) = true) := by
  refine ⟨by decide, by decide, by decide, ?_, ?_⟩
  · intro h w
    exact ⟨"https://www.google.com/maps/dir/" ++ pyQuote (pyStrip (replaceNewlines h)) ++ "/"
      ++ pyQuote (pyStrip (replaceNewlines w)), by simp [get_commute_time_url]⟩
  · intro h w
    show ("https://www.google.com/maps/dir/" ++ pyQuote (pyStrip (replaceNewlines h)) ++ "/"
      ++ pyQuote (pyStrip (replaceNewlines w)) ++ "/data=!3m1!4b1!4m2!4m1!3e3").data.all
        (fun c => !(c == '\n')) = true
    simp only [strdata_append, List.all_append]
    simp [pyQuote, pyQuoteList_no_newline]

/-! ### Price patterns on monthly-rent text (claim C6) -/

/-- A price pattern can only start matching at a euro sign. -/
theorem matchPriceAt_ne_euro (qual : List Char) (c : Char) (t : List Char) (h : c ≠ '€') :
    matchPriceAt qual (c :: t) = none := by
  simp [matchPriceAt, h]

/-- Scanning a euro-free segment just skips it. -/
theorem priceFindFirst_append_no_euro (qual l r : List Char) (h : ∀ c ∈ l, c ≠ '€') :
    priceFindFirst qual (l ++ r) = priceFindFirst qual r := by
  induction l with
  | nil => rfl
  | cons c t ih =>
    have hc : c ≠ '€' := h c (List.mem_cons_self c t)
    rw [List.cons_append, priceFindFirst, matchPriceAt_ne_euro qual c _ hc]
    exact ih (fun x hx => h x (List.mem_cons_of_mem c hx))

/-- A euro-free text has no price match at all. -/
theorem priceFindFirst_no_euro (qual l : List Char) (h : ∀ c ∈ l, c ≠ '€') :
    priceFindFirst qual l = none := by
  have := priceFindFirst_append_no_euro qual l [] h
  simpa using this

/-- At a euro sign followed by a single digit and a separator, every price
pattern fails: `\d{2,3}` needs at least two digits before the first dot. -/
theorem matchPriceAt_one_digit (qual : List Char) (rest : List Char) :
    matchPriceAt qual ('€' :: ' ' :: '1' :: '.' :: rest) = none := by
  simp [matchPriceAt, List.dropWhile, List.takeWhile, isPySpace]

/-- Claim C6 (amended): a page whose only euro amount is "€ 1.500 per maand"
produces no asking price — not because of the monthly-rent window, but
because `\d{2,3}` requires 2-3 digits before the first thousands separator,
so no price pattern matches "€ 1.500" at all. -/
theorem price_monthly_rent_scan_yields_none (pre post : String)
    (h1 : pre.data.all (fun c => !(c == '€')) = true)
    (h2 : post.data.all (fun c => !(c == '€')) = true) :
    priceScanMethod1 (pre ++ "€ 1.500 per maand" ++ post) = none := by
  have hpre : ∀ c ∈ pre.data, c ≠ '€' := by
    intro c hc
    have := List.all_eq_true.mp h1 c hc
    simpa using this
  have hpost : ∀ c ∈ post.data, c ≠ '€' := by
    intro c hc
    have := List.all_eq_true.mp h2 c hc
    simpa using this
  have key : ∀ qual : List Char,
      priceFindFirst qual (pre ++ "€ 1.500 per maand" ++ post).data = none := by
    intro qual
    have hdata : (pre ++ "€ 1.500 per maand" ++ post).data =
        pre.data ++ ('€' :: ' ' :: '1' :: '.' :: ("500 per maand".data ++ post.data)) := by
      rw [strdata_append, strdata_append]
      simp
    rw [hdata, priceFindFirst_append_no_euro qual pre.data _ hpre, priceFindFirst,
      matchPriceAt_one_digit]
    apply priceFindFirst_no_euro
    intro c hc
    simp only [List.mem_cons] at hc
    rcases hc with rfl | rfl | rfl | hc
    · decide
    · decide
    · decide
    · rcases List.mem_append.mp hc with hm | hm
      · have hmid : ∀ x ∈ "500 per maand".data, x ≠ '€' := by decide
        exact hmid c hm
      · exact hpost c hm
  show priceLoop price_patterns (pre ++ "€ 1.500 per maand" ++ post) = none
  rw [price_patterns]
  rw [priceLoop, key]
  rw [priceLoop, key]
  rw [priceLoop, key]
  rw [priceLoop, key]
  rw [priceLoop, key]
  rfl

/-- Witness for the amended C6 at a concrete page. -/
theorem price_monthly_rent_scan_yields_none_witness :
    priceScanMethod1 ("Huurprijs: " ++ "€ 1.500 per maand" ++ ", per direct") = none :=
  price_monthly_rent_scan_yields_none "Huurprijs: " ", per direct" (by decide) (by decide)

/-- Claim C6 counterexample: the claim asserts that the numeric pattern
matches "€ 1.500"; on the concrete page it does not (no pattern, not even
the unqualified fallback, matches a one-digit leading group), so the claim
as stated is false even though no asking price is produced. -/
theorem price_monthly_numeric_pattern_no_match :
    priceFindFirst ([] : List Char) "Huur: € 1.500 per maand".data = none ∧
    priceScanMethod1 "Huur: € 1.500 per maand" = none := by
  exact ⟨by decide, by decide⟩

/-! ### Area fallback (claim C7) -/

/-- Every value the fallback area scan returns has passed the [10, 1000]
plausibility filter. -/
theorem areaScanAux_inRange :
    ∀ (fuel : Nat) (s : List Char) (v : String),
      areaScanAux fuel s = some v → areaInRange v = true := by
  intro fuel
  induction fuel with
  | zero => intro s v h; simp [areaScanAux] at h
  | succ n ih =>
    intro s v h
    cases s with
    | nil => simp [areaScanAux] at h
    | cons c rest =>
      rw [areaScanAux] at h
      cases hm : matchAreaAt (c :: rest) with
      | none =>
        rw [hm] at h
        exact ih rest v h
      | some pr =>
        obtain ⟨g, after⟩ := pr
        rw [hm] at h
        by_cases hr : areaInRange (commaToDot g) = true
        · simp only [hr, if_true] at h
          obtain rfl := Option.some.inj h
          exact hr
        · rw [Bool.not_eq_true] at hr
          simp only [hr, Bool.false_eq_true, if_false] at h
          exact ih after v h

/-- Claim C7 (amended): when no dt/dd pair yields an area the full-text
fallback runs; it returns the FIRST pattern match whose value lies in
[10, 1000] (so a page whose first in-range token is "71 m²" yields "71"),
and any value it returns passed the plausibility filter, so an occurrence
like "5000 m²" is rejected and alone yields no area. -/
theorem area_fallback_first_in_range :
    (∀ (dts : List (String × Option String)) (txt : String) (v : String),
        (dtLoopGo dts none).1 = none →
        extract_area dts txt = some v →
        areaInRange v = true) ∧
    extract_area [] "Gezellige studio van 71 m² in het centrum" = some "71" ∧
    extract_area [] "Perceel van 5000 m²" = none := by
  refine ⟨?_, by decide, by decide⟩
  intro dts txt v hdt h
  rw [extract_area, hdt] at h
  exact areaScanAux_inRange _ _ v h

/-- Witness for the amended C7 with both hypotheses discharged at a concrete
page. -/
theorem area_fallback_first_in_range_witness :
    areaInRange "71" = true :=
  area_fallback_first_in_range.1 [] "71 m²" "71" rfl (by decide)

/-- Claim C7 counterexample: a page containing the substring "71 m²" (inside
"171 m²") with no dt/dd pairs yields area "171", not "71" — the fallback
takes the first (leftmost, non-overlapping) in-range match, not the claimed
occurrence. -/
theorem area_substring_claim_fails :
    strContains "Perceel van 171 m² groot" "71 m²" = true ∧
    (dtLoopGo [] none).1 = none ∧
    extract_area [] "Perceel van 171 m² groot" = some "171" ∧
    (("171" : String) == "71") = false := by
  exact ⟨by decide, rfl, by decide, by decide⟩

/-! ### Energy label (claim C8) -/

/-- A single uppercase letter in A-G. -/
def isUpperAG (v : String) : Bool :=
  match v.data with
  | [c] => decide ('A' ≤ c) && decide (c ≤ 'G')
  | _ => false

/-- The dt/dd energy search only returns characters in A-G. -/
theorem searchAG_AG (l : List Char) (c : Char) (h : searchAG l = some c) :
    (decide ('A' ≤ c) && decide (c ≤ 'G')) = true := by
  unfold searchAG at h
  have h2 := List.find?_some h
  exact h2

/-- The fallback energy matcher only returns characters in A-G. -/
theorem tryEnergyAt_AG (s : List Char) (c : Char) (h : tryEnergyAt s = some c) :
    (decide ('A' ≤ c) && decide (c ≤ 'G')) = true := by
  cases s with
  | nil => simp [tryEnergyAt] at h
  | cons x rest =>
    rw [tryEnergyAt] at h
    split at h
    · split at h
      · split at h
        · obtain rfl := Option.some.inj h
          assumption
        · exact absurd h (by simp)
      · exact absurd h (by simp)
    · exact absurd h (by simp)

/-- The fallback energy scan only returns characters in A-G. -/
theorem energyScanList_AG (l : List Char) (c : Char) (h : energyScanList l = some c) :
    (decide ('A' ≤ c) && decide (c ≤ 'G')) = true := by
  induction l with
  | nil => simp [energyScanList] at h
  | cons x t ih =>
    rw [energyScanList] at h
    cases ht : tryEnergyAt (x :: t) with
    | some ch =>
      rw [ht] at h
      obtain rfl := Option.some.inj h
      exact tryEnergyAt_AG _ _ ht
    | none =>
      rw [ht] at h
      exact ih h

/-- Python `str.upper` fixes a letter that is already in A-G. -/
theorem pyUpperChar_AG (c : Char) (_h1 : 'A' ≤ c) (h2 : c ≤ 'G') : pyUpperChar c = c := by
  unfold pyUpperChar
  have hd : decide ('a' ≤ c) = false := by
    apply decide_eq_false
    intro hle
    exact absurd (le_trans hle h2) (by decide)
  simp [hd]

/-- The dt/dd loop preserves "the energy accumulator, when set, is a single
letter A-G". -/
theorem dtLoopGo_energy_AG :
    ∀ (pairs : List (String × Option String)) (e : Option String),
      (∀ v, e = some v → isUpperAG v = true) →
      ∀ v, (dtLoopGo pairs e).2 = some v → isUpperAG v = true := by
  intro pairs
  induction pairs with
  | nil =>
    intro e he v h
    exact he v h
  | cons p rest ih =>
    intro e he v h
    obtain ⟨dt, dd⟩ := p
    unfold dtLoopGo at h
    by_cases hA : isAreaKey (dtKeyLower dt) = true
    · rw [if_pos hA] at h
      cases dd with
      | none => exact ih e he v h
      | some ddt =>
        replace h : (match ddAreaSearch ddt.data with
            | some a => (some (commaToDot a), e)
            | none => dtLoopGo rest e).2 = some v := h
        cases ha : ddAreaSearch ddt.data with
        | some a =>
          rw [ha] at h
          exact he v h
        | none =>
          rw [ha] at h
          exact ih e he v h
    · rw [if_neg hA] at h
      by_cases hE : isEnergyKey (dtKeyLower dt) = true
      · rw [if_pos hE] at h
        cases dd with
        | none => exact ih e he v h
        | some ddt =>
          replace h : (match searchAG ddt.data with
              | some c => dtLoopGo rest (some (String.mk [c]))
              | none => dtLoopGo rest e).2 = some v := h
          cases hc : searchAG ddt.data with
          | some ch =>
            rw [hc] at h
            refine ih (some (String.mk [ch])) ?_ v h
            intro w hw
            obtain rfl := Option.some.inj hw
            simpa [isUpperAG] using searchAG_AG _ _ hc
          | none =>
            rw [hc] at h
            exact ih e he v h
      · rw [if_neg hE] at h
        exact ih e he v h

/-- Claim C8 (amended): whenever the energy-label field is set (by either
strategy) it is a single uppercase letter A-G; the keyword matching is
fully case-insensitive in the dt/dd strategy (the key is lowercased) but
only first-letter case-insensitive in the full-text fallback, whose regex
is `[Ee]nergielabel[:\s]*([A-G])`. -/
theorem energy_label_value_uppercase_AG :
    (∀ (dts : List (String × Option String)) (txt : String) (v : String),
        extract_energy dts txt = some v → isUpperAG v = true) ∧
    extract_energy [("ENERGIELABEL", some "Label B")] "" = some "B" ∧
    extract_energy [] "Energielabel C" = some "C" ∧
    extract_energy [] "energielabel D" = some "D" ∧
    extract_energy [] "ENERGIELABEL F" = none := by
  refine ⟨?_, by decide, by decide, by decide, by decide⟩
  intro dts txt v h
  rw [extract_energy] at h
  cases hm : (dtLoopGo dts none).2 with
  | some w =>
    rw [hm] at h
    obtain rfl := Option.some.inj h
    exact dtLoopGo_energy_AG dts none (fun _ hw => by simp at hw) w hm
  | none =>
    rw [hm] at h
    rw [energyFallback] at h
    cases hs : energyScanList txt.data with
    | none => rw [hs] at h; simp at h
    | some c =>
      rw [hs] at h
      have hv : v = String.mk [pyUpperChar c] := by
        have := Option.some.inj h.symm
        simpa using this
      subst hv
      have hb := energyScanList_AG _ _ hs
      rw [Bool.and_eq_true, decide_eq_true_eq, decide_eq_true_eq] at hb
      rw [pyUpperChar_AG c hb.1 hb.2]
      simpa [isUpperAG, decide_eq_true_eq] using hb
  
/-- Witness for the amended C8 at a concrete page. -/
theorem energy_label_value_uppercase_AG_witness :
    extract_energy [] "energielabel: D" = some "D" ∧ isUpperAG "D" = true :=
  ⟨by decide, energy_label_value_uppercase_AG.1 [] "energielabel: D" "D" (by decide)⟩

/-- Claim C8 counterexample: the full-text fallback keyword is NOT matched
case-insensitively — the all-caps keyword finds nothing while the
lowercase keyword succeeds on the same page text. -/
theorem energy_keyword_not_fully_case_insensitive :
    extract_energy [] "ENERGIELABEL: B" = none ∧
    extract_energy [] "energielabel: B" = some "B" := by
  exact ⟨by decide, by decide⟩
